import Mathlib

/-!
Shallow embedding of the `NADReceiverTCPC338` client from `nad_receiver`
(`nad_receiver/__init__.py` together with the `C338_CMDS` table from
`nad_receiver/nad_commands.py`).

Python values that flow through the client (command values, decoded state
values) are modelled by `PyVal`; rationals stand in for Python floats, which
is exact for every value the program manipulates (integers, halves and other
short decimals).  Python exceptions raised by the modelled code paths are
`PyExc`; fallible operations return `Except PyExc _`.
-/

/-- A Python value as used by the C338 client: bool, int, float or str.
Floats are modelled exactly by rationals. -/
inductive PyVal where
  | bool (b : Bool)
  | int (n : Int)
  | float (q : ℚ)
  | str (s : String)
deriving DecidableEq, Repr

/-- Python exceptions raised by the modelled code paths. -/
inductive PyExc where
  | valueError
  | keyError
  | indexError
deriving DecidableEq, Repr

/-- Numeric value of a Python object, when it is a number
(`True == 1`, `False == 0`). Strings are not numbers. -/
def numVal : PyVal → Option ℚ
  | .bool b => some (if b then 1 else 0)
  | .int n => some (mkRat n 1)
  | .float q => some q
  | .str _ => none

/-- Python `==`: numbers compare by numeric value across bool/int/float;
strings compare as strings; a number never equals a string. -/
def pyEq (a b : PyVal) : Bool :=
  match numVal a, numVal b with
  | some p, some q => p == q
  | _, _ =>
    match a, b with
    | .str s, .str t => s == t
    | _, _ => false

/-- Value of a list of decimal digit characters (unchecked). -/
def digitsVal (cs : List Char) : Nat :=
  cs.foldl (fun a c => 10 * a + (c.toNat - 48)) 0

/-- Parse a nonempty all-digit character list as a natural number. -/
def natOfDigits (cs : List Char) : Option Nat :=
  if cs.isEmpty then none
  else if cs.all Char.isDigit then some (digitsVal cs)
  else none

/-- Python `int(s)` on a string: optional sign followed by digits. -/
def pyParseInt (s : String) : Option Int :=
  match s.toList with
  | '-' :: cs => (natOfDigits cs).map (fun n => -(n : Int))
  | '+' :: cs => (natOfDigits cs).map Int.ofNat
  | cs => (natOfDigits cs).map Int.ofNat

/-- Parse an unsigned decimal literal (`12`, `12.5`, `12.`, `.5`). -/
def parseUnsignedFloat (cs : List Char) : Option ℚ :=
  let ip := cs.takeWhile Char.isDigit
  match cs.drop ip.length with
  | [] => (natOfDigits cs).map (fun n => mkRat n 1)
  | '.' :: fp =>
    if fp.all Char.isDigit && !(ip.isEmpty && fp.isEmpty) then
      some (mkRat (digitsVal ip * 10 ^ fp.length + digitsVal fp) (10 ^ fp.length))
    else none
  | _ => none

/-- Python `float(s)` on a string: optional sign and a decimal literal. -/
def pyParseFloat (s : String) : Option ℚ :=
  match s.toList with
  | '-' :: cs => (parseUnsignedFloat cs).map Neg.neg
  | '+' :: cs => parseUnsignedFloat cs
  | cs => parseUnsignedFloat cs

/-- Python `int(value)`: bools to 0/1, floats truncate toward zero,
strings must parse as an integer literal (else `ValueError`). -/
def pyToInt : PyVal → Except PyExc Int
  | .bool b => .ok (if b then 1 else 0)
  | .int n => .ok n
  | .float q => .ok (if 0 ≤ q.num then q.floor else q.ceil)
  | .str s =>
    match pyParseInt s with
    | some n => .ok n
    | none => .error .valueError

/-- Python `float(value)`: bools to 0/1, ints exactly, strings must parse
as a float literal (else `ValueError`). -/
def pyToFloat : PyVal → Except PyExc ℚ
  | .bool b => .ok (if b then 1 else 0)
  | .int n => .ok (mkRat n 1)
  | .float q => .ok q
  | .str s =>
    match pyParseFloat s with
    | some q => .ok q
    | none => .error .valueError

/-- Fractional digits of the remainder `rem / den`, stopping when the
remainder hits zero; always produces at least one digit, like Python
float printing (`2.0`, `12.5`). -/
def fracDigits : Nat → Nat → Nat → List Char
  | 0, _, _ => []
  | fuel + 1, rem, den =>
    let r10 := rem * 10
    if r10 % den = 0 then [Char.ofNat (48 + r10 / den)]
    else Char.ofNat (48 + r10 / den) :: fracDigits fuel (r10 % den) den

/-- Python `str(f)` for a float with a short decimal expansion:
sign, integer part, dot, fractional digits (at least one, so `2.0`). -/
def pyStrFloat (q : ℚ) : String :=
  let sign := if q.num < 0 then "-" else ""
  let n := q.num.natAbs
  sign ++ toString (n / q.den) ++ "." ++ String.mk (fracDigits 17 (n % q.den) q.den)

/-- Python `str(value)` as used when building a wire command. -/
def pyStr : PyVal → String
  | .bool b => if b then "True" else "False"
  | .int n => toString n
  | .float q => pyStrFloat q
  | .str s => s

example : pyStr (.float (-12)) = "-12.0" := by decide
example : pyStr (.float (mkRat (-25) 2)) = "-12.5" := by decide
example : pyStr (.int (-12)) = "-12" := by decide
example : pyParseFloat "-12.0" = some (-12) := by decide
example : pyParseInt "2.0" = none := by decide

instance {ε α : Type} [DecidableEq ε] [DecidableEq α] : DecidableEq (Except ε α)
  | .ok x, .ok y => decidable_of_iff (x = y) (by simp)
  | .error e, .error f => decidable_of_iff (e = f) (by simp)
  | .ok _, .error _ => .isFalse (by simp)
  | .error _, .ok _ => .isFalse (by simp)

/-- Value types declared by the `C338_CMDS` table (Python `bool`, `int`,
`float`). -/
inductive PyType where
  | pbool
  | pint
  | pfloat
deriving DecidableEq, Repr

/-- Legal value domain of a command: a Python `range(lo, hi)` or a list of
strings. -/
inductive ValueDomain where
  | range (lo hi : Int)
  | enum (xs : List String)
deriving DecidableEq, Repr

/-- One entry of the `C338_CMDS` table from `nad_commands.py`. -/
structure CmdDesc where
  supported_operators : List String
  values : Option ValueDomain
  type : Option PyType
deriving DecidableEq, Repr

def MSG_ON : String := "On"

def MSG_OFF : String := "Off"

/-- The `C338_CMDS` table from `nad_commands.py`, keyed by command name. -/
def C338_CMDS (key : String) : Option CmdDesc :=
  if key = "Main" then
    some ⟨["?"], none, none⟩
  else if key = "Main.AnalogGain" then
    some ⟨["+", "-", "=", "?"], some (.range 0 0), some .pint⟩
  else if key = "Main.Brightness" then
    some ⟨["+", "-", "=", "?"], some (.range 0 4), some .pint⟩
  else if key = "Main.Mute" then
    some ⟨["+", "-", "=", "?"], some (.enum [MSG_OFF, MSG_ON]), some .pbool⟩
  else if key = "Main.Power" then
    some ⟨["+", "-", "=", "?"], some (.enum [MSG_OFF, MSG_ON]), some .pbool⟩
  else if key = "Main.Volume" then
    some ⟨["+", "-", "=", "?"], some (.range (-80) 0), some .pfloat⟩
  else if key = "Main.Bass" then
    some ⟨["+", "-", "=", "?"], some (.enum [MSG_OFF, MSG_ON]), some .pbool⟩
  else if key = "Main.ControlStandby" then
    some ⟨["+", "-", "=", "?"], some (.enum [MSG_OFF, MSG_ON]), some .pbool⟩
  else if key = "Main.AutoStandby" then
    some ⟨["+", "-", "=", "?"], some (.enum [MSG_OFF, MSG_ON]), some .pbool⟩
  else if key = "Main.AutoSense" then
    some ⟨["+", "-", "=", "?"], some (.enum [MSG_OFF, MSG_ON]), some .pbool⟩
  else if key = "Main.Source" then
    some ⟨["+", "-", "=", "?"],
      some (.enum ["Stream", "Wireless", "TV", "Phono", "Coax1", "Coax2", "Opt1", "Opt2"]), none⟩
  else if key = "Main.Version" then
    some ⟨["?"], none, some .pfloat⟩
  else if key = "Main.Model" then
    some ⟨["?"], some (.enum ["NADC338"]), none⟩
  else
    none

/-- Python membership test of `value` in the `values` entry of a command
description: membership in a `range` holds for numbers equal to one of its
integers; membership in a string list uses Python `==`. -/
def inValues (v : PyVal) (d : ValueDomain) : Bool :=
  match d with
  | .range lo hi =>
    match numVal v with
    | some q => q.den == 1 && decide (lo ≤ q.num) && decide (q.num < hi)
    | none => false
  | .enum xs => xs.any (fun x => pyEq v (.str x))

/-- Python sequence indexing of the `values` entry at position `i`, with
negative-index wrap-around; out of bounds raises `IndexError`. -/
def domainIndex (d : ValueDomain) (i : Int) : Except PyExc PyVal :=
  match d with
  | .enum xs =>
    let j := if i < 0 then (xs.length : Int) + i else i
    if 0 ≤ j then
      match xs.get? j.toNat with
      | some x => .ok (.str x)
      | none => .error .indexError
    else .error .indexError
  | .range lo hi =>
    let len : Int := max 0 (hi - lo)
    let j := if i < 0 then len + i else i
    if 0 ≤ j ∧ j < len then .ok (.int (lo + j)) else .error .indexError

/-- Helper for `pySplitEq`: accumulate the current field in reverse. -/
def pySplitEqGo : List Char → List Char → List String
  | [], acc => [String.mk acc.reverse]
  | c :: cs, acc =>
    if c = '=' then String.mk acc.reverse :: pySplitEqGo cs []
    else pySplitEqGo cs (c :: acc)

/-- Python `data.split('=')`. -/
def pySplitEq (s : String) : List String :=
  pySplitEqGo s.toList []

example : pySplitEq "Main.Volume=-12.0" = ["Main.Volume", "-12.0"] := by decide
example : pySplitEq "NoSeparator" = ["NoSeparator"] := by decide
example : pySplitEq "a=b=c" = ["a", "b", "c"] := by decide

/-- Decoding of one inbound line, embedded from the front half of
`NADReceiverTCPC338._parse_data`: `key, value = data.split('=')` (a
`ValueError` unless exactly two fields), the `C338_CMDS[key]` lookup (a
`KeyError` for unknown keys), and the type coercion — booleans via
`values.index(value)`, otherwise the constructor of the declared type. -/
def decodeLine (data : String) : Except PyExc (String × PyVal) :=
  match pySplitEq data with
  | [key, value] =>
    match C338_CMDS key with
    | none => .error .keyError
    | some cmd_desc =>
      match cmd_desc.type with
      | some .pbool =>
        match cmd_desc.values with
        | some (.enum xs) =>
          match xs.findIdx? (· == value) with
          | some i => .ok (key, .bool (i != 0))
          | none => .error .valueError
        | some (.range _ _) => .error .valueError
        | none => .error .keyError
      | some .pint =>
        match pyParseInt value with
        | some n => .ok (key, .int n)
        | none => .error .valueError
      | some .pfloat =>
        match pyParseFloat value with
        | some q => .ok (key, .float q)
        | none => .error .valueError
      | none => .ok (key, .str value)
  | _ => .error .valueError

example : decodeLine "Main.Power=On" = .ok ("Main.Power", .bool true) := by decide
example : decodeLine "Main.Volume=-12" = .ok ("Main.Volume", .float (-12)) := by decide
example : decodeLine "Main.Source=Opt1" = .ok ("Main.Source", .str "Opt1") := by decide
example : decodeLine "Bogus" = .error .valueError := by decide
example : decodeLine "No.Such.Key=1" = .error .keyError := by decide

/-- Validation and wire-line construction embedded from the body of
`NADReceiverTCPC338.exec_command` (the part guarded by `if self._writer`):
operator must be in `supported_operators` (else `ValueError`), `=` needs a
value, `?`/`-`/`+` forbid one, boolean values are mapped through
`values[int(value)]`, and other values must lie in the declared domain. -/
def validateCmd (command operator : String) (value : Option PyVal) : Except PyExc String :=
  match C338_CMDS command with
  | none => .error .keyError
  | some cmd_desc =>
    if operator ∈ cmd_desc.supported_operators then
      if operator = "=" ∧ value = none then .error .valueError
      else if operator ∈ (["?", "-", "+"] : List String) ∧ value ≠ none then .error .valueError
      else
        match value with
        | none => .ok (command ++ operator)
        | some v =>
          match cmd_desc.values with
          | none => .ok (command ++ operator ++ pyStr v)
          | some dom =>
            if cmd_desc.type = some .pbool then
              match pyToInt v with
              | .error e => .error e
              | .ok i =>
                match domainIndex dom i with
                | .error e => .error e
                | .ok v2 => .ok (command ++ operator ++ pyStr v2)
            else if inValues v dom then .ok (command ++ operator ++ pyStr v)
            else .error .valueError
    else .error .valueError

example : validateCmd "Main" "?" none = .ok "Main?" := by decide
example : validateCmd "Main.Mute" "=" (some (.bool true)) = .ok "Main.Mute=On" := by decide
example : validateCmd "Main.Volume" "=" (some (.float (-12))) = .ok "Main.Volume=-12.0" := by
  decide
example : validateCmd "Main.Volume" "=" (some (.float 0)) = .error .valueError := by decide
example : validateCmd "Main.Volume" "+" none = .ok "Main.Volume+" := by decide

/-- Device state `self._state`: an insertion-ordered dictionary from
command keys to typed values, as an association list. -/
abbrev DState := List (String × PyVal)

/-- Python dict assignment `st[key] = v`: replace the binding of the key
in place if present, else append at the end (insertion order preserved). -/
def dictSet : DState → String → PyVal → DState
  | [], key, v => [(key, v)]
  | (k2, v2) :: rest, key, v =>
    if k2 = key then (key, v) :: rest else (k2, v2) :: dictSet rest key v

/-- Python dict lookup `st.get(key)`. -/
def dictGet : DState → String → Option PyVal
  | [], _ => none
  | (k2, v2) :: rest, key => if k2 = key then some v2 else dictGet rest key

/-- State mutation embedded from the back half of
`NADReceiverTCPC338._parse_data`: store the decoded value and, when the key
is `Main.Volume`, also force `Main.Mute` to `False`. -/
def applyUpdate (st : DState) (key : String) (v : PyVal) : DState :=
  let st2 := dictSet st key v
  if key = "Main.Volume" then dictSet st2 "Main.Mute" (.bool false) else st2

/-- A `loop.create_future()` waiter slot: its creation id, and its
resolution (`none` = pending, `some true` = `set_result(True)`,
`some false` = cancelled). -/
structure Waiter where
  id : Nat
  result : Option Bool
deriving DecidableEq, Repr

/-- A scheduled `_state_changed` debounce task: its creation id and whether
`task.done()` holds (fired or cancelled). -/
structure TTask where
  id : Nat
  done : Bool
deriving DecidableEq, Repr

/-- Observable state of one `NADReceiverTCPC338` session: the transport
writer (`true` iff `self._writer` is set), the device state, the single
waiter and debounce-task slots, a counter for fresh future/task ids, the
lines written to the transport, and the arguments of the
`state_changed_cb` invocations so far. -/
structure Session where
  writer : Bool
  state : DState
  state_changed_waiter : Option Waiter
  state_changed_task : Option TTask
  nextId : Nat
  written : List String
  notifications : List DState
  has_cb : Bool
deriving DecidableEq, Repr

/-- Embeds `NADReceiverTCPC338.exec_command`: a no-op without a writer;
otherwise validate/encode and write the line (with no terminator). -/
def execCommand (s : Session) (command operator : String) (value : Option PyVal) :
    Except PyExc Session :=
  if s.writer then
    match validateCmd command operator value with
    | .error e => .error e
    | .ok cmd => .ok { s with written := s.written ++ [cmd] }
  else .ok s

/-- Embeds `NADReceiverTCPC338._parse_data` at session level: decode the
line, mutate the state, and schedule a `_state_changed` task only when none
is pending (`task is None or task.done()`); a pending task is left as is. -/
def parseDataS (s : Session) (data : String) : Except PyExc Session :=
  match decodeLine data with
  | .error e => .error e
  | .ok (key, value) =>
    let s2 := { s with state := applyUpdate s.state key value }
    if s2.state_changed_task.elim true (fun t => t.done) then
      .ok { s2 with state_changed_task := some ⟨s2.nextId, false⟩, nextId := s2.nextId + 1 }
    else .ok s2

/-- Embeds the body of `NADReceiverTCPC338._state_changed` once its
debounce sleep elapses: invoke the callback with the current state, resolve
the waiter (if one is set and still pending), and complete the task. -/
def stateChangedFire (s : Session) : Session :=
  let s1 := if s.has_cb then { s with notifications := s.notifications ++ [s.state] } else s
  let s2 :=
    match s1.state_changed_waiter with
    | some w =>
      if w.result = none then
        { s1 with state_changed_waiter := some { w with result := some true } }
      else s1
    | none => s1
  match s2.state_changed_task with
  | some t => { s2 with state_changed_task := some { t with done := true } }
  | none => s2

/-- Embeds the synchronous prefix of `NADReceiverTCPC338.status`: create a
fresh waiter only when the slot is empty or already done, then issue the
`Main?` query through `exec_command`. -/
def statusStep (s : Session) : Except PyExc Session :=
  let s1 :=
    if s.state_changed_waiter.elim true (fun w => w.result.isSome) then
      { s with state_changed_waiter := some ⟨s.nextId, none⟩, nextId := s.nextId + 1 }
    else s
  execCommand s1 "Main" "?" none

/-- Embeds the `finally` block of `NADReceiverTCPC338._connection_loop`:
cancel the waiter and the debounce task, drop the writer, and — only when
the state is nonempty — clear it and notify the callback with the empty
state. -/
def connCleanup (s : Session) : Session :=
  let s1 :=
    match s.state_changed_waiter with
    | some w =>
      if w.result = none then
        { s with state_changed_waiter := some { w with result := some false } }
      else s
    | none => s
  let s2 :=
    match s1.state_changed_task with
    | some t => { s1 with state_changed_task := some { t with done := true } }
    | none => s1
  let s3 := { s2 with writer := false }
  if s3.state ≠ [] then
    let s4 := { s3 with state := [] }
    if s4.has_cb then { s4 with notifications := s4.notifications ++ [([] : DState)] } else s4
  else s3

/-- The read loop of `NADReceiverTCPC338._connection_loop` over a list of
already-stripped inbound lines: parse each in turn; the first parse failure
escapes the loop with its exception. Returns the exception (if any) and the
session at that point. -/
def readLines (s : Session) : List String → Option PyExc × Session
  | [] => (none, s)
  | l :: rest =>
    match parseDataS s l with
    | .ok s2 => readLines s2 rest
    | .error e => (some e, s)

/-- Embeds `NADReceiverTCPC338.set_volume`: coerce through `float()` and
execute `Main.Volume=`. -/
def set_volume (s : Session) (volume : PyVal) : Except PyExc Session :=
  match pyToFloat volume with
  | .error e => .error e
  | .ok q => execCommand s "Main.Volume" "=" (some (.float q))

/-- How one `_connection_loop` attempt ends, as seen by `run_loop`:
normal return (clean EOF), `asyncio.CancelledError`, one of the caught
transport errors (`ConnectionRefusedError`, `OSError`,
`asyncio.TimeoutError`), or any other exception (e.g. a parse error). -/
inductive AttemptEnd where
  | eof
  | cancelled
  | transportErr
  | otherExc
deriving DecidableEq, Repr

/-- How `run_loop` itself finishes. -/
inductive LoopExit where
  | eofBreak
  | cancelBreak
  | raised
deriving DecidableEq, Repr

/-- Embeds `NADReceiverTCPC338.run_loop` as a step relation over the
outcomes of the successive connection attempts: returns the number of attempts
made, the list of reconnect sleeps taken between them, and how the loop
ended (`none` when the outcome list is exhausted with the loop still
running). `rt` is `self._reconnect_timeout`. -/
def run_loop (rt : Nat) : List AttemptEnd → Nat × List Nat × Option LoopExit
  | [] => (0, [], none)
  | o :: rest =>
    match o with
    | .eof => (1, [], some .eofBreak)
    | .cancelled => (1, [], some .cancelBreak)
    | .otherExc => (1, [], some .raised)
    | .transportErr =>
      let r := run_loop rt rest
      (r.1 + 1, rt :: r.2.1, r.2.2)

/-- A freshly connected session: writer live, everything else empty. -/
def openSession : Session :=
  ⟨true, [], none, none, 0, [], [], true⟩

/-- Lemmas about the device-state dictionary. -/
theorem dictGet_dictSet_self (st : DState) (k : String) (v : PyVal) :
    dictGet (dictSet st k v) k = some v := by
  induction st with
  | nil => simp [dictSet, dictGet]
  | cons hd tl ih =>
    obtain ⟨k2, v2⟩ := hd
    by_cases h : k2 = k <;> simp [dictSet, dictGet, h, ih]

theorem dictGet_dictSet_other (st : DState) (k k2 : String) (v : PyVal) (h : k2 ≠ k) :
    dictGet (dictSet st k v) k2 = dictGet st k2 := by
  induction st with
  | nil => simp [dictSet, dictGet, h, Ne.symm h]
  | cons hd tl ih =>
    obtain ⟨k3, v3⟩ := hd
    by_cases h3 : k3 = k
    · subst h3
      simp [dictSet, dictGet, Ne.symm h]
    · by_cases h4 : k3 = k2 <;> simp [dictSet, dictGet, h3, h4, h, ih]

/-- C8: with no live writer, `exec_command` is a complete no-op — it
returns normally (never raises), writes nothing, and leaves every session
field, including the device state, unchanged. -/
theorem C8_exec_command_noop_when_disconnected (s : Session) (command operator : String)
    (value : Option PyVal) (h : s.writer = false) :
    execCommand s command operator value = .ok s := by
  simp [execCommand, h]

/-- Witness for C8 at a concrete disconnected session and command. -/
theorem C8_witness :
    (⟨false, [("Main.Power", .bool true)], none, none, 0, [], [], true⟩ : Session).writer
        = false ∧
    execCommand ⟨false, [("Main.Power", .bool true)], none, none, 0, [], [], true⟩
        "Main.Volume" "=" (some (.float (-10)))
      = .ok ⟨false, [("Main.Power", .bool true)], none, none, 0, [], [], true⟩ :=
  ⟨rfl, C8_exec_command_noop_when_disconnected _ "Main.Volume" "=" (some (.float (-10))) rfl⟩

/-- C9: the reconnect loop retries, after one fixed-length sleep each, for
every attempt that ends in a recoverable transport error, and stops without
any further attempt at the first attempt that ends in clean EOF or in
cancellation (outcomes after that point are never consumed). Attempts are
sequential by construction: the k-th retry starts only after the previous
attempt has ended. -/
theorem C9_run_loop_policy (rt : Nat) (k : Nat) (rest : List AttemptEnd) :
    run_loop rt (List.replicate k .transportErr ++ .eof :: rest)
      = (k + 1, List.replicate k rt, some .eofBreak) ∧
    run_loop rt (List.replicate k .transportErr ++ .cancelled :: rest)
      = (k + 1, List.replicate k rt, some .cancelBreak) := by
  induction k with
  | zero => simp [run_loop]
  | succ n ih =>
    refine ⟨?_, ?_⟩ <;>
      simp [List.replicate_succ, run_loop, ih.1, ih.2]

/-- C5 fails as stated: `Main.Volume` is not the only key whose update
touches `Main.Mute` — an update whose key is `Main.Mute` itself (a key
other than `Main.Volume`) obviously changes `Main.Mute`. -/
theorem C5_counterexample :
    ("Main.Mute" : String) ≠ "Main.Volume" ∧
    dictGet (applyUpdate [("Main.Mute", .bool false)] "Main.Mute" (.bool true)) "Main.Mute"
      ≠ dictGet [("Main.Mute", .bool false)] "Main.Mute" := by
  decide

/-- C5 (amended): applying an update with key `Main.Volume` always leaves
`Main.Mute` mapped to `False` in the same update, whatever the prior state;
an update with any key other than `Main.Volume` and other than `Main.Mute`
itself leaves `Main.Mute` untouched. -/
theorem C5_volume_unmutes (st : DState) (key : String) (v : PyVal) :
    dictGet (applyUpdate st "Main.Volume" v) "Main.Mute" = some (.bool false) ∧
    (key ≠ "Main.Volume" → key ≠ "Main.Mute" →
      dictGet (applyUpdate st key v) "Main.Mute" = dictGet st "Main.Mute") := by
  constructor
  · simp [applyUpdate, dictGet_dictSet_self]
  · intro h1 h2
    simp [applyUpdate, h1, dictGet_dictSet_other st key "Main.Mute" v (Ne.symm h2)]

/-- Witness for C5 (amended) at a concrete muted state: a volume update
forces mute off, and a `Main.Power` update leaves mute alone. -/
theorem C5_witness :
    dictGet (applyUpdate [("Main.Mute", PyVal.bool true)] "Main.Volume" (.float (-20)))
        "Main.Mute" = some (.bool false) ∧
    dictGet (applyUpdate [("Main.Mute", PyVal.bool true)] "Main.Power" (.bool false))
        "Main.Mute" = dictGet [("Main.Mute", PyVal.bool true)] "Main.Mute" :=
  ⟨(C5_volume_unmutes [("Main.Mute", PyVal.bool true)] "Main.Power" (.float (-20))).1,
    (C5_volume_unmutes [("Main.Mute", PyVal.bool true)] "Main.Power" (.bool false)).2
      (by decide) (by decide)⟩

/-- C1 fails as stated: a malformed inbound line (here one with no `=`)
is not dropped with the loop continuing — the exception raised in
`_parse_data` escapes the read loop of `_connection_loop`, so the following
well-formed line `Main.Mute=On` is never consumed. -/
theorem C1_counterexample :
    readLines openSession ["NoEqualsSign", "Main.Mute=On"] = (some .valueError, openSession) ∧
    dictGet (readLines openSession ["NoEqualsSign", "Main.Mute=On"]).2.state "Main.Mute"
      = none := by
  decide

/-- C1 (amended): a line that fails to parse is fatal to the session: the
read loop stops at the failing line with its exception, consuming none of
the following lines, and `run_loop` does not treat that exception as a
recoverable transport error — the loop terminates raising instead of
retrying. -/
theorem C1_parse_failure_fatal (s : Session) (l : String) (rest : List String) (e : PyExc)
    (rt : Nat) (h : parseDataS s l = .error e) :
    readLines s (l :: rest) = (some e, s) ∧
    run_loop rt [.otherExc] = (1, [], some .raised) := by
  exact ⟨by simp [readLines, h], rfl⟩

/-- Witness for C1 (amended) at a concrete malformed line. -/
theorem C1_witness :
    readLines openSession ["NoEqualsSign", "Main.Power=On"] = (some .valueError, openSession) ∧
    run_loop 10 [.otherExc] = (1, [], some .raised) :=
  C1_parse_failure_fatal openSession "NoEqualsSign" ["Main.Power=On"] .valueError 10
    (by decide)

/-- C2 fails in its last conjunct: a second `status()` call issued while a
waiter is still pending does reuse the pending waiter (id 0 here), but it
still sends its own `Main?` query — the write happens unconditionally, so
two queries are on the wire. -/
theorem C2_counterexample :
    statusStep openSession
      = .ok ⟨true, [], some ⟨0, none⟩, none, 1, ["Main?"], [], true⟩ ∧
    statusStep ⟨true, [], some ⟨0, none⟩, none, 1, ["Main?"], [], true⟩
      = .ok ⟨true, [], some ⟨0, none⟩, none, 1, ["Main?", "Main?"], [], true⟩ := by
  decide

/-- C2 (amended): a `status()` call made while a waiter is pending reuses
that waiter unchanged (so both callers resolve from the single next
debounced notification, which sets the result of the shared waiter), but each
call still writes its own `Main?` query to the device. -/
theorem C2_waiter_reuse (s : Session) (w : Waiter) (hw : s.state_changed_waiter = some w)
    (hp : w.result = none) (hwr : s.writer = true) :
    (∃ s2, statusStep s = .ok s2 ∧ s2.state_changed_waiter = some w ∧
      s2.written = s.written ++ ["Main?"]) ∧
    (stateChangedFire s).state_changed_waiter = some ⟨w.id, some true⟩ := by
  have hval : validateCmd "Main" "?" none = .ok "Main?" := by decide
  constructor
  · refine ⟨{ s with written := s.written ++ ["Main?"] }, ?_, by simp [hw], by simp⟩
    simp [statusStep, hw, hp, execCommand, hwr, hval]
  · cases hcb : s.has_cb <;> cases ht : s.state_changed_task <;>
      simp [stateChangedFire, hcb, hw, hp, ht]

/-- Witness for C2 (amended) at a concrete session holding a pending
waiter. -/
theorem C2_witness :
    (∃ s2, statusStep ⟨true, [], some ⟨0, none⟩, none, 1, ["Main?"], [], true⟩ = .ok s2 ∧
      s2.state_changed_waiter = some ⟨0, none⟩ ∧
      s2.written = (⟨true, [], some ⟨0, none⟩, none, 1, ["Main?"], [], true⟩ : Session).written
        ++ ["Main?"]) ∧
    (stateChangedFire ⟨true, [], some ⟨0, none⟩, none, 1, ["Main?"], [], true⟩).state_changed_waiter
      = some ⟨0, some true⟩ :=
  C2_waiter_reuse ⟨true, [], some ⟨0, none⟩, none, 1, ["Main?"], [], true⟩ ⟨0, none⟩
    rfl rfl rfl

/-- C3 fails in its callback conjunct: when the device state is already
empty at the moment of the drop (for instance a connection attempt that
never produced a line), the `if self._state` guard skips both the clear and
the callback — the waiter and task are cancelled and the writer dropped,
but no change-notification with the empty state fires at all, although a
callback is registered. -/
theorem C3_counterexample :
    connCleanup ⟨true, [], some ⟨0, none⟩, some ⟨1, false⟩, 2, ["Main?"], [], true⟩
      = ⟨false, [], some ⟨0, some false⟩, some ⟨1, true⟩, 2, ["Main?"], [], true⟩ ∧
    (connCleanup ⟨true, [], some ⟨0, none⟩, some ⟨1, false⟩, 2, ["Main?"], [], true⟩).notifications
      = [] := by
  decide

/-- C3 (amended): after a connection drop with a nonempty device state and
a registered callback, the cleanup empties the state, drops the writer,
cancels a still-pending waiter (it resolves with cancellation, never
hangs), marks any debounce task done, and invokes the callback exactly once
with the now-empty state; with an already-empty state no callback fires. -/
theorem C3_cleanup_notifies (s : Session) (hcb : s.has_cb = true) (hst : s.state ≠ []) :
    (connCleanup s).state = [] ∧
    (connCleanup s).notifications = s.notifications ++ [([] : DState)] ∧
    (connCleanup s).writer = false ∧
    (∀ w, s.state_changed_waiter = some w → w.result = none →
      (connCleanup s).state_changed_waiter = some ⟨w.id, some false⟩) ∧
    (∀ t, s.state_changed_task = some t →
      (connCleanup s).state_changed_task = some ⟨t.id, true⟩) := by
  obtain ⟨wr, st, wt, tk, ni, wl, nf, cb⟩ := s
  simp only at hcb hst
  subst hcb
  cases wt with
  | none => cases tk <;> simp [connCleanup, hst]
  | some w =>
    cases hwr : w.result with
    | none => cases tk <;> simp [connCleanup, hst, hwr]
    | some b => cases tk <;> simp [connCleanup, hst, hwr]

/-- Witness for C3 (amended) at a concrete session that held state, a
pending waiter and a pending debounce task when the connection dropped. -/
theorem C3_witness :
    (connCleanup ⟨true, [("Main.Power", .bool true)], some ⟨0, none⟩, some ⟨1, false⟩, 2,
        [], [], true⟩).state = [] ∧
    (connCleanup ⟨true, [("Main.Power", .bool true)], some ⟨0, none⟩, some ⟨1, false⟩, 2,
        [], [], true⟩).notifications
      = (⟨true, [("Main.Power", .bool true)], some ⟨0, none⟩, some ⟨1, false⟩, 2,
        [], [], true⟩ : Session).notifications ++ [([] : DState)] ∧
    (connCleanup ⟨true, [("Main.Power", .bool true)], some ⟨0, none⟩, some ⟨1, false⟩, 2,
        [], [], true⟩).writer = false ∧
    (connCleanup ⟨true, [("Main.Power", .bool true)], some ⟨0, none⟩, some ⟨1, false⟩, 2,
        [], [], true⟩).state_changed_waiter = some ⟨0, some false⟩ ∧
    (connCleanup ⟨true, [("Main.Power", .bool true)], some ⟨0, none⟩, some ⟨1, false⟩, 2,
        [], [], true⟩).state_changed_task = some ⟨1, true⟩ := by
  have h := C3_cleanup_notifies
    ⟨true, [("Main.Power", .bool true)], some ⟨0, none⟩, some ⟨1, false⟩, 2, [], [], true⟩
    rfl (by decide)
  exact ⟨h.1, h.2.1, h.2.2.1, h.2.2.2.1 ⟨0, none⟩ rfl rfl, h.2.2.2.2 ⟨1, false⟩ rfl⟩

/-- A successful `_parse_data` call only touches the device state, the task
slot and the id counter; and it leaves a still-pending debounce task
exactly as it was (`task is None or task.done()` is false, so no new task
is created). -/
theorem parseDataS_frame (s s2 : Session) (l : String) (h : parseDataS s l = .ok s2) :
    s2.notifications = s.notifications ∧ s2.has_cb = s.has_cb ∧
    s2.state_changed_waiter = s.state_changed_waiter ∧ s2.written = s.written ∧
    s2.writer = s.writer ∧
    (∀ t, s.state_changed_task = some t → t.done = false →
      s2.state_changed_task = some t) := by
  cases hdec : decodeLine l with
  | error e => simp [parseDataS, hdec] at h
  | ok kv =>
    obtain ⟨key, value⟩ := kv
    simp only [parseDataS, hdec] at h
    split at h <;> rename_i hcond <;>
      simp only [Except.ok.injEq] at h <;> subst h
    · refine ⟨rfl, rfl, rfl, rfl, rfl, ?_⟩
      intro t htt htd
      simp only [htt, Option.elim] at hcond
      rw [htd] at hcond
      cases hcond
    · exact ⟨rfl, rfl, rfl, rfl, rfl, fun t htt _ => htt⟩

/-- The read loop preserves the notification log, the callback
registration, the waiter slot and a pending debounce task across any
error-free burst of lines. -/
theorem readLines_frame (lines : List String) : ∀ s : Session,
    (readLines s lines).1 = none →
    (readLines s lines).2.notifications = s.notifications ∧
    (readLines s lines).2.has_cb = s.has_cb ∧
    (readLines s lines).2.state_changed_waiter = s.state_changed_waiter ∧
    (∀ t, s.state_changed_task = some t → t.done = false →
      (readLines s lines).2.state_changed_task = some t) := by
  induction lines with
  | nil =>
    intro s _
    refine ⟨by simp [readLines], by simp [readLines], by simp [readLines], ?_⟩
    intro t htt _
    simpa [readLines] using htt
  | cons l rest ih =>
    intro s hok
    cases hp : parseDataS s l with
    | error e => simp [readLines, hp] at hok
    | ok s2 =>
      have hf := parseDataS_frame s s2 l hp
      simp only [readLines, hp] at hok ⊢
      have hr := ih s2 hok
      refine ⟨by rw [hr.1, hf.1], by rw [hr.2.1, hf.2.1], by rw [hr.2.2.1, hf.2.2.1], ?_⟩
      intro t htt htd
      exact hr.2.2.2 t (hf.2.2.2.2.2 t htt htd) htd

/-- C6: a burst of inbound lines parsed while one debounce task is pending
produces no notification during the burst and never replaces or resets the
pending task; when that one task then fires, it emits exactly one
notification, carrying the state aggregated from the whole burst. -/
theorem C6_burst_single_notification (s : Session) (t : TTask) (lines : List String)
    (ht : s.state_changed_task = some t) (htp : t.done = false) (hcb : s.has_cb = true)
    (hok : (readLines s lines).1 = none) :
    (readLines s lines).2.state_changed_task = some t ∧
    (readLines s lines).2.notifications = s.notifications ∧
    (stateChangedFire (readLines s lines).2).notifications
      = s.notifications ++ [(readLines s lines).2.state] ∧
    (stateChangedFire (readLines s lines).2).state_changed_task = some ⟨t.id, true⟩ := by
  obtain ⟨hn, hc, hw, htk⟩ := readLines_frame lines s hok
  have htask := htk t ht htp
  rw [hcb] at hc
  generalize hgen : (readLines s lines).2 = r at htask hn hc ⊢
  obtain ⟨rwr, rst, rwt, rtk, rni, rwl, rnf, rcb⟩ := r
  simp only at htask hn hc
  subst htask
  subst hc
  obtain ⟨tid, tdone⟩ := t
  simp only at htp
  subst htp
  cases rwt with
  | none => simp [stateChangedFire, hn]
  | some w =>
    cases hwr : w.result with
    | none => simp [stateChangedFire, hn, hwr]
    | some b => simp [stateChangedFire, hn, hwr]

/-- Witness for C6 at a concrete session with a pending debounce task and
a three-line burst (power on, volume, mute). -/
theorem C6_witness :
    (readLines ⟨true, [], none, some ⟨7, false⟩, 8, [], [], true⟩
        ["Main.Power=On", "Main.Volume=-20", "Main.Mute=On"]).2.state_changed_task
      = some ⟨7, false⟩ ∧
    (readLines ⟨true, [], none, some ⟨7, false⟩, 8, [], [], true⟩
        ["Main.Power=On", "Main.Volume=-20", "Main.Mute=On"]).2.notifications = [] ∧
    (stateChangedFire (readLines ⟨true, [], none, some ⟨7, false⟩, 8, [], [], true⟩
        ["Main.Power=On", "Main.Volume=-20", "Main.Mute=On"]).2).notifications
      = [] ++ [(readLines ⟨true, [], none, some ⟨7, false⟩, 8, [], [], true⟩
        ["Main.Power=On", "Main.Volume=-20", "Main.Mute=On"]).2.state] ∧
    (stateChangedFire (readLines ⟨true, [], none, some ⟨7, false⟩, 8, [], [], true⟩
        ["Main.Power=On", "Main.Volume=-20", "Main.Mute=On"]).2).state_changed_task
      = some ⟨7, true⟩ :=
  C6_burst_single_notification ⟨true, [], none, some ⟨7, false⟩, 8, [], [], true⟩ ⟨7, false⟩
    ["Main.Power=On", "Main.Volume=-20", "Main.Mute=On"] rfl rfl rfl (by decide)

/-- C7: for every command key in the registry, validation (the checks
`exec_command` runs while connected) rejects with an error: a `?`, `-` or
`+` operator given together with a value; operator `=` with no value; any
operator outside the `supported_operators` of the command; and, for a command
with a declared value domain and a non-boolean type, an `=` with a value
outside that domain. -/
theorem C7_validate_rejections (key : String) (desc : CmdDesc)
    (hdesc : C338_CMDS key = some desc) :
    (∀ operator v, operator ∈ (["?", "-", "+"] : List String) →
      validateCmd key operator (some v) = .error .valueError) ∧
    validateCmd key "=" none = .error .valueError ∧
    (∀ operator value, operator ∉ desc.supported_operators →
      validateCmd key operator value = .error .valueError) ∧
    (∀ v dom, desc.values = some dom → desc.type ≠ some .pbool → inValues v dom = false →
      validateCmd key "=" (some v) = .error .valueError) := by
  refine ⟨?_, ?_, ?_, ?_⟩
  · intro operator v hop
    by_cases hsup : operator ∈ desc.supported_operators
    · simp only [List.mem_cons, List.mem_singleton, List.not_mem_nil, or_false] at hop
      rcases hop with rfl | rfl | rfl
      · simp [validateCmd, hdesc, hsup]
      · simp [validateCmd, hdesc, hsup]
      · simp [validateCmd, hdesc, hsup]
    · simp [validateCmd, hdesc, hsup]
  · by_cases hsup : ("=" : String) ∈ desc.supported_operators <;>
      simp [validateCmd, hdesc, hsup]
  · intro operator value hsup
    simp [validateCmd, hdesc, hsup]
  · intro v dom hdom hnb hnv
    by_cases hsup : ("=" : String) ∈ desc.supported_operators
    · simp [validateCmd, hdesc, hsup, hdom, hnb, hnv]
    · simp [validateCmd, hdesc, hsup]

/-- Witness for C7 at the `Main.Volume` entry: a `-` with a value, `=`
without a value, an unknown operator `%`, and `=` with the out-of-range
value `5.0` are all rejected. -/
theorem C7_witness :
    validateCmd "Main.Volume" "-" (some (.int 5)) = .error .valueError ∧
    validateCmd "Main.Volume" "=" none = .error .valueError ∧
    validateCmd "Main.Volume" "%" (some (.int 5)) = .error .valueError ∧
    validateCmd "Main.Volume" "=" (some (.float 5)) = .error .valueError := by
  have h := C7_validate_rejections "Main.Volume"
    ⟨["+", "-", "=", "?"], some (.range (-80) 0), some .pfloat⟩ (by decide)
  exact ⟨h.1 "-" (.int 5) (by decide), h.2.1,
    h.2.2.1 "%" (some (.int 5)) (by decide),
    h.2.2.2 (.float 5) (.range (-80) 0) rfl (by decide) (by decide)⟩

/-- Result test for the modelled Python calls. -/
def pyIsOk {α : Type} : Except PyExc α → Bool
  | .ok _ => true
  | .error _ => false

/-- Validation of an `=` command on `Main.Volume` with a float value:
accepted exactly when the value is an integer in `range(-80, 0)`. -/
theorem validateCmd_volume_float (q : ℚ) :
    validateCmd "Main.Volume" "=" (some (.float q))
      = if q.den = 1 ∧ -80 ≤ q.num ∧ q.num < 0
        then .ok ("Main.Volume=" ++ pyStrFloat q) else .error .valueError := by
  have hC : C338_CMDS "Main.Volume"
      = some ⟨["+", "-", "=", "?"], some (.range (-80) 0), some .pfloat⟩ := by decide
  by_cases hq : q.den = 1 ∧ -80 ≤ q.num ∧ q.num < 0
  · simp [validateCmd, hC, inValues, numVal, pyStr, hq, hq.1, hq.2.1, hq.2.2]
  · simp only [validateCmd, hC, if_neg hq]
    have hval : inValues (.float q) (.range (-80) 0) = false := by
      cases hb : inValues (.float q) (.range (-80) 0) with
      | false => rfl
      | true =>
        exfalso
        simp only [inValues, numVal, Bool.and_eq_true, beq_iff_eq, decide_eq_true_eq] at hb
        exact hq ⟨hb.1.1, hb.1.2, hb.2⟩
    simp [hval]

/-- C10: with an open connection, `set_volume` (which coerces through
`float()` and then validates membership in `range(-80, 0)`) accepts exactly
the integral values `-80` to `-1`; in particular `set_volume(0)` raises a
`ValueError` — despite the docstring of the facade advertising `-80` to `0` —
and so does every non-integral value such as `-12.5`, despite the declared
`float` type. -/
theorem C10_set_volume_range (s : Session) (h : s.writer = true) :
    (∀ v q, pyToFloat v = .ok q →
      (pyIsOk (set_volume s v) = true ↔ q.den = 1 ∧ -80 ≤ q.num ∧ q.num < 0)) ∧
    set_volume s (.int 0) = .error .valueError ∧
    set_volume s (.float (mkRat (-25) 2)) = .error .valueError := by
  refine ⟨?_, ?_, ?_⟩
  · intro v q hv
    simp only [set_volume, hv, execCommand, h, if_true, validateCmd_volume_float]
    by_cases hq : q.den = 1 ∧ -80 ≤ q.num ∧ q.num < 0
    · rw [if_pos hq]
      exact iff_of_true rfl hq
    · rw [if_neg hq]
      exact iff_of_false (by simp [pyIsOk]) hq
  · simp only [set_volume, pyToFloat, execCommand, h, if_true, validateCmd_volume_float]
    rw [if_neg (by decide)]
  · simp only [set_volume, pyToFloat, execCommand, h, if_true, validateCmd_volume_float]
    rw [if_neg (by decide)]

/-- The Python type of the value agrees with the declared value type:
`bool` for boolean commands, `int` for int commands, `float` for the float
command, and a string for commands with no declared type. -/
def typeMatches (desc : CmdDesc) (v : PyVal) : Prop :=
  match desc.type, v with
  | some .pbool, .bool _ => True
  | some .pint, .int _ => True
  | some .pfloat, .float _ => True
  | none, .str _ => True
  | _, _ => False

/-- Validation of an `=` command with an int value against an int-typed
`range` domain: accepted exactly when the value lies in the range. -/
theorem validateCmd_int_range (key : String) (ops : List String) (lo hi n : Int)
    (hC : C338_CMDS key = some ⟨ops, some (.range lo hi), some .pint⟩)
    (hop : ("=" : String) ∈ ops) :
    validateCmd key "=" (some (.int n))
      = if lo ≤ n ∧ n < hi then .ok (key ++ "=" ++ toString n)
        else .error .valueError := by
  have hval : inValues (.int n) (.range lo hi) = (decide (lo ≤ n) && decide (n < hi)) := by
    simp [inValues, numVal, Rat.mkRat_one]
  simp only [validateCmd, hC, hval]
  by_cases hn : lo ≤ n ∧ n < hi
  · simp [hop, hn.1, hn.2, pyStr]
  · rw [if_neg hn]
    rcases not_and_or.mp hn with hn1 | hn2
    · simp [hop, hn1]
    · simp [hop, hn2]

/-- One and the same value can be accepted by validation and then fail to
decode: C4 fails on `('Main.Brightness', '=', 2.0)`. Python's
`2.0 in range(0, 4)` is true, so validation accepts the float and encodes
`Main.Brightness=2.0`; decoding that line applies the declared type `int`,
and Python `int` applied to the text `2.0` raises `ValueError`. -/
theorem C4_counterexample :
    validateCmd "Main.Brightness" "=" (some (.float 2)) = .ok "Main.Brightness=2.0" ∧
    decodeLine "Main.Brightness=2.0" = .error .valueError := by
  decide

/-- Round-trip for the six boolean commands: `True` encodes via the enum
string at index 1 (`On`) and decodes back to `True`; `False` via `Off`. -/
theorem roundtrip_bool :
    ∀ key ∈ (["Main.Mute", "Main.Power", "Main.Bass", "Main.ControlStandby",
        "Main.AutoStandby", "Main.AutoSense"] : List String), ∀ b : Bool,
      validateCmd key "=" (some (.bool b))
        = .ok (key ++ "=" ++ (if b then "On" else "Off")) ∧
      decodeLine (key ++ "=" ++ (if b then "On" else "Off")) = .ok (key, .bool b) := by
  decide

/-- Round-trip for the in-range `Main.Brightness` values 0–3. -/
theorem roundtrip_brightness :
    ∀ n ∈ Finset.Icc (0 : Int) 3,
      decodeLine ("Main.Brightness" ++ "=" ++ toString n) = .ok ("Main.Brightness", .int n) := by
  decide

/-- Round-trip for the in-range `Main.Volume` values −80.0 … −1.0. -/
theorem roundtrip_volume :
    ∀ n ∈ Finset.Icc (-80 : Int) (-1),
      decodeLine ("Main.Volume" ++ "=" ++ pyStrFloat ((n : ℚ)))
        = .ok ("Main.Volume", .float ((n : ℚ))) := by
  decide

/-- Round-trip for the eight `Main.Source` enum strings (kept as raw
strings by both directions). -/
theorem roundtrip_source :
    ∀ str ∈ (["Stream", "Wireless", "TV", "Phono", "Coax1", "Coax2", "Opt1", "Opt2"] :
        List String),
      decodeLine ("Main.Source" ++ "=" ++ str) = .ok ("Main.Source", .str str) := by
  decide

/-- Validation of an `=` command with a string value against an
untyped enum domain: accepted exactly when the string is a member. -/
theorem validateCmd_str_enum (key : String) (ops xs : List String) (str : String)
    (hC : C338_CMDS key = some ⟨ops, some (.enum xs), none⟩)
    (hop : ("=" : String) ∈ ops) :
    validateCmd key "=" (some (.str str))
      = if str ∈ xs then .ok (key ++ "=" ++ str) else .error .valueError := by
  by_cases hmem : str ∈ xs
  · have hval : inValues (.str str) (.enum xs) = true := by
      simp only [inValues, pyEq, numVal, List.any_eq_true, beq_iff_eq]
      exact ⟨str, hmem, rfl⟩
    simp [validateCmd, hC, hop, hval, pyStr, hmem]
  · have hval : inValues (.str str) (.enum xs) = false := by
      cases hb : inValues (.str str) (.enum xs) with
      | false => rfl
      | true =>
        exfalso
        simp only [inValues, pyEq, numVal, List.any_eq_true, beq_iff_eq] at hb
        obtain ⟨x, hx, rfl⟩ := hb
        exact hmem hx
    simp [validateCmd, hC, hop, hval, hmem]

/-- C4 (amended): for every `(key, '=', value)` triple accepted by the
command grammar validation in which the Python type of the value matches
the declared value type of the command (`typeMatches`), decoding the encoded wire
line recovers the key unchanged and the original value — booleans passing
through the enum-string mapping (`True` ↔ index 1 `On`, `False` ↔ index 0
`Off`) and back. -/
theorem C4_roundtrip_typed (key : String) (desc : CmdDesc) (v : PyVal) (line : String)
    (hdesc : C338_CMDS key = some desc) (htm : typeMatches desc v)
    (henc : validateCmd key "=" (some v) = .ok line) :
    decodeLine line = .ok (key, v) := by
  by_cases h1 : key = "Main"
  -- Main
  · subst h1
    rw [show C338_CMDS "Main" = some ⟨["?"], none, none⟩ from by decide,
      Option.some.injEq] at hdesc
    subst hdesc
    cases v with
    | str s =>
      simp [validateCmd, show C338_CMDS "Main" = some ⟨["?"], none, none⟩ from by decide]
        at henc
    | bool b => simp [typeMatches] at htm
    | int n => simp [typeMatches] at htm
    | float q => simp [typeMatches] at htm
  by_cases h2 : key = "Main.AnalogGain"
  -- Main.AnalogGain: range(0, 0) is empty, no value is ever accepted
  · subst h2
    rw [show C338_CMDS "Main.AnalogGain"
        = some ⟨["+", "-", "=", "?"], some (.range 0 0), some .pint⟩ from by decide,
      Option.some.injEq] at hdesc
    subst hdesc
    cases v with
    | int n =>
      rw [validateCmd_int_range "Main.AnalogGain" ["+", "-", "=", "?"] 0 0 n
        (by decide) (by decide)] at henc
      rw [if_neg (by omega)] at henc
      exact Except.noConfusion henc
    | bool b => simp [typeMatches] at htm
    | float q => simp [typeMatches] at htm
    | str s => simp [typeMatches] at htm
  by_cases h3 : key = "Main.Brightness"
  -- Main.Brightness
  · subst h3
    rw [show C338_CMDS "Main.Brightness"
        = some ⟨["+", "-", "=", "?"], some (.range 0 4), some .pint⟩ from by decide,
      Option.some.injEq] at hdesc
    subst hdesc
    cases v with
    | int n =>
      rw [validateCmd_int_range "Main.Brightness" ["+", "-", "=", "?"] 0 4 n
        (by decide) (by decide)] at henc
      by_cases hn : (0 : Int) ≤ n ∧ n < 4
      · rw [if_pos hn] at henc
        rw [Except.ok.injEq] at henc
        subst henc
        exact roundtrip_brightness n (Finset.mem_Icc.mpr ⟨hn.1, by omega⟩)
      · rw [if_neg hn] at henc
        exact Except.noConfusion henc
    | bool b => simp [typeMatches] at htm
    | float q => simp [typeMatches] at htm
    | str s => simp [typeMatches] at htm
  by_cases h4 : key = "Main.Mute"
  -- Main.Mute
  · subst h4
    rw [show C338_CMDS "Main.Mute"
        = some ⟨["+", "-", "=", "?"], some (.enum [MSG_OFF, MSG_ON]), some .pbool⟩
        from by decide, Option.some.injEq] at hdesc
    subst hdesc
    cases v with
    | bool b =>
      have hb := roundtrip_bool "Main.Mute" (by decide) b
      rw [hb.1] at henc
      rw [Except.ok.injEq] at henc
      subst henc
      exact hb.2
    | int n => simp [typeMatches] at htm
    | float q => simp [typeMatches] at htm
    | str s => simp [typeMatches] at htm
  by_cases h5 : key = "Main.Power"
  -- Main.Power
  · subst h5
    rw [show C338_CMDS "Main.Power"
        = some ⟨["+", "-", "=", "?"], some (.enum [MSG_OFF, MSG_ON]), some .pbool⟩
        from by decide, Option.some.injEq] at hdesc
    subst hdesc
    cases v with
    | bool b =>
      have hb := roundtrip_bool "Main.Power" (by decide) b
      rw [hb.1] at henc
      rw [Except.ok.injEq] at henc
      subst henc
      exact hb.2
    | int n => simp [typeMatches] at htm
    | float q => simp [typeMatches] at htm
    | str s => simp [typeMatches] at htm
  by_cases h6 : key = "Main.Volume"
  -- Main.Volume
  · subst h6
    rw [show C338_CMDS "Main.Volume"
        = some ⟨["+", "-", "=", "?"], some (.range (-80) 0), some .pfloat⟩ from by decide,
      Option.some.injEq] at hdesc
    subst hdesc
    cases v with
    | float q =>
      rw [validateCmd_volume_float q] at henc
      by_cases hq : q.den = 1 ∧ -80 ≤ q.num ∧ q.num < 0
      · obtain ⟨n, rfl⟩ : ∃ n : Int, q = (n : ℚ) :=
          ⟨q.num, (Rat.coe_int_num_of_den_eq_one hq.1).symm⟩
        rw [if_pos hq] at henc
        rw [Except.ok.injEq] at henc
        subst henc
        refine roundtrip_volume n (Finset.mem_Icc.mpr ⟨?_, ?_⟩)
        · have h2 := hq.2.1
          rwa [Rat.num_intCast] at h2
        · have h2 := hq.2.2
          rw [Rat.num_intCast] at h2
          omega
      · rw [if_neg hq] at henc
        exact Except.noConfusion henc
    | bool b => simp [typeMatches] at htm
    | int n => simp [typeMatches] at htm
    | str s => simp [typeMatches] at htm
  by_cases h7 : key = "Main.Bass"
  -- Main.Bass
  · subst h7
    rw [show C338_CMDS "Main.Bass"
        = some ⟨["+", "-", "=", "?"], some (.enum [MSG_OFF, MSG_ON]), some .pbool⟩
        from by decide, Option.some.injEq] at hdesc
    subst hdesc
    cases v with
    | bool b =>
      have hb := roundtrip_bool "Main.Bass" (by decide) b
      rw [hb.1] at henc
      rw [Except.ok.injEq] at henc
      subst henc
      exact hb.2
    | int n => simp [typeMatches] at htm
    | float q => simp [typeMatches] at htm
    | str s => simp [typeMatches] at htm
  by_cases h8 : key = "Main.ControlStandby"
  -- Main.ControlStandby
  · subst h8
    rw [show C338_CMDS "Main.ControlStandby"
        = some ⟨["+", "-", "=", "?"], some (.enum [MSG_OFF, MSG_ON]), some .pbool⟩
        from by decide, Option.some.injEq] at hdesc
    subst hdesc
    cases v with
    | bool b =>
      have hb := roundtrip_bool "Main.ControlStandby" (by decide) b
      rw [hb.1] at henc
      rw [Except.ok.injEq] at henc
      subst henc
      exact hb.2
    | int n => simp [typeMatches] at htm
    | float q => simp [typeMatches] at htm
    | str s => simp [typeMatches] at htm
  by_cases h9 : key = "Main.AutoStandby"
  -- Main.AutoStandby
  · subst h9
    rw [show C338_CMDS "Main.AutoStandby"
        = some ⟨["+", "-", "=", "?"], some (.enum [MSG_OFF, MSG_ON]), some .pbool⟩
        from by decide, Option.some.injEq] at hdesc
    subst hdesc
    cases v with
    | bool b =>
      have hb := roundtrip_bool "Main.AutoStandby" (by decide) b
      rw [hb.1] at henc
      rw [Except.ok.injEq] at henc
      subst henc
      exact hb.2
    | int n => simp [typeMatches] at htm
    | float q => simp [typeMatches] at htm
    | str s => simp [typeMatches] at htm
  by_cases h10 : key = "Main.AutoSense"
  -- Main.AutoSense
  · subst h10
    rw [show C338_CMDS "Main.AutoSense"
        = some ⟨["+", "-", "=", "?"], some (.enum [MSG_OFF, MSG_ON]), some .pbool⟩
        from by decide, Option.some.injEq] at hdesc
    subst hdesc
    cases v with
    | bool b =>
      have hb := roundtrip_bool "Main.AutoSense" (by decide) b
      rw [hb.1] at henc
      rw [Except.ok.injEq] at henc
      subst henc
      exact hb.2
    | int n => simp [typeMatches] at htm
    | float q => simp [typeMatches] at htm
    | str s => simp [typeMatches] at htm
  by_cases h11 : key = "Main.Source"
  -- Main.Source
  · subst h11
    rw [show C338_CMDS "Main.Source"
        = some ⟨["+", "-", "=", "?"],
          some (.enum ["Stream", "Wireless", "TV", "Phono", "Coax1", "Coax2", "Opt1", "Opt2"]),
          none⟩ from by decide, Option.some.injEq] at hdesc
    subst hdesc
    cases v with
    | str str =>
      rw [validateCmd_str_enum "Main.Source" ["+", "-", "=", "?"]
        ["Stream", "Wireless", "TV", "Phono", "Coax1", "Coax2", "Opt1", "Opt2"] str
        (by decide) (by decide)] at henc
      by_cases hmem : str ∈ (["Stream", "Wireless", "TV", "Phono", "Coax1", "Coax2",
          "Opt1", "Opt2"] : List String)
      · rw [if_pos hmem] at henc
        rw [Except.ok.injEq] at henc
        subst henc
        fin_cases hmem <;> exact roundtrip_source _ (by decide)
      · rw [if_neg hmem] at henc
        exact Except.noConfusion henc
    | bool b => simp [typeMatches] at htm
    | int n => simp [typeMatches] at htm
    | float q => simp [typeMatches] at htm
  by_cases h12 : key = "Main.Version"
  -- Main.Version: only ? is supported, no assignment is ever accepted
  · subst h12
    rw [show C338_CMDS "Main.Version" = some ⟨["?"], none, some .pfloat⟩ from by decide,
      Option.some.injEq] at hdesc
    subst hdesc
    cases v with
    | float q =>
      simp [validateCmd,
        show C338_CMDS "Main.Version" = some ⟨["?"], none, some .pfloat⟩ from by decide]
        at henc
    | bool b => simp [typeMatches] at htm
    | int n => simp [typeMatches] at htm
    | str s => simp [typeMatches] at htm
  by_cases h13 : key = "Main.Model"
  -- Main.Model: only ? is supported, no assignment is ever accepted
  · subst h13
    rw [show C338_CMDS "Main.Model" = some ⟨["?"], some (.enum ["NADC338"]), none⟩
        from by decide, Option.some.injEq] at hdesc
    subst hdesc
    cases v with
    | str s =>
      simp [validateCmd,
        show C338_CMDS "Main.Model" = some ⟨["?"], some (.enum ["NADC338"]), none⟩
          from by decide] at henc
    | bool b => simp [typeMatches] at htm
    | int n => simp [typeMatches] at htm
    | float q => simp [typeMatches] at htm
  -- unknown key
  have hnone : C338_CMDS key = none := by
    unfold C338_CMDS
    rw [if_neg h1, if_neg h2, if_neg h3, if_neg h4, if_neg h5, if_neg h6, if_neg h7,
      if_neg h8, if_neg h9, if_neg h10, if_neg h11, if_neg h12, if_neg h13]
  rw [hnone] at hdesc
  exact Option.noConfusion hdesc

/-- Witness for C4 (amended): `Main.Mute = True` encodes to
`Main.Mute=On` and decodes back to `True`. -/
theorem C4_witness :
    decodeLine "Main.Mute=On" = .ok ("Main.Mute", .bool true) :=
  C4_roundtrip_typed "Main.Mute"
    ⟨["+", "-", "=", "?"], some (.enum [MSG_OFF, MSG_ON]), some .pbool⟩
    (.bool true) "Main.Mute=On" (by decide) trivial (by decide)

/-- Witness for C10 at a freshly connected session: `-12` is accepted,
`0` and `-12.5` are rejected. -/
theorem C10_witness :
    (pyIsOk (set_volume openSession (.int (-12))) = true ↔
      (mkRat (-12) 1).den = 1 ∧ -80 ≤ (mkRat (-12) 1).num ∧ (mkRat (-12) 1).num < 0) ∧
    set_volume openSession (.int 0) = .error .valueError ∧
    set_volume openSession (.float (mkRat (-25) 2)) = .error .valueError :=
  ⟨(C10_set_volume_range openSession rfl).1 (.int (-12)) (mkRat (-12) 1) rfl,
    (C10_set_volume_range openSession rfl).2.1,
    (C10_set_volume_range openSession rfl).2.2⟩

